import Mathlib

/-!
Shallow embedding of `flow/envs/straightroad_env.py`.

The module wraps a traffic micro-simulator as an RL environment.  The
simulator kernel (`self.k.vehicle`) is modelled as a structure of query
functions over vehicle identifiers; the environment parameters
(`env_params.additional_params`) as a record of the configuration keys the
code reads.  Real-valued quantities are modelled as rationals; `np.mean` on
an empty list yields NaN in numpy, which is modelled as `Option.none`, and
`np.nan_to_num` maps that to `0`.
-/

namespace StraightRoad

/-- Constant `MAX_LANES = 6` from the source. -/
def MAX_LANES : ℕ := 6

/-- Constant `MAX_NUM_VEHS = 8` from the source. -/
def MAX_NUM_VEHS : ℕ := 8

/-- Constant `SPEED_SCALE = 50` from the source. -/
def SPEED_SCALE : ℚ := 50

/-- Constant `HEADWAY_SCALE = 1000` from the source. -/
def HEADWAY_SCALE : ℚ := 1000

/-- Snapshot of the simulator kernel `self.k.vehicle`: the query functions
the environment code calls.  `get_leader` returns `none` for Python `None`;
the Python code also treats the empty string `""` as "no leader". -/
structure VehicleKernel where
  rl_ids : List String
  all_ids : List String
  get_x_by_id : String → ℚ
  get_speed : String → ℚ
  get_leader : String → Option String
  get_headway : String → ℚ

/-- The keys of `env_params.additional_params` read by the modelled code. -/
structure AdditionalParams where
  target_velocity : ℚ
  terminate_on_wave : Bool
  wave_termination_horizon : ℕ
  wave_termination_speed : ℚ
  lead_obs : Bool

/-- `np.mean` over a list: NaN (here `none`) on the empty list. -/
def pymean (l : List ℚ) : Option ℚ :=
  if l = [] then none else some (l.sum / (l.length : ℚ))

/-- `np.nan_to_num`: maps the NaN produced by an empty mean to `0`. -/
def nan_to_num (x : Option ℚ) : ℚ := x.getD 0

/-- `I210SingleEnv.get_sorted_rl_ids`:
`sorted(rl_ids, key=get_x_by_id)[::-1]` followed by `rl_ids[-MAX_NUM_VEHS:]`.
Python's `sorted` is a stable ascending sort, which coincides with
`List.insertionSort` on the pulled-back `≤`; `[::-1]` is `reverse`, and the
negative-index slice `l[-n:]` is `drop (length - n)`. -/
def get_sorted_rl_ids (k : VehicleKernel) : List String :=
  let s := (List.insertionSort
    (fun a b => k.get_x_by_id a ≤ k.get_x_by_id b) k.rl_ids).reverse
  s.drop (s.length - MAX_NUM_VEHS)

/-- `I210SingleEnv.observation_space` dimension: `3 * MAX_NUM_VEHS` in
lead-observation mode, else `3*max_lanes + 3*max_lanes + 2`. -/
def obs_dim (lead_obs : Bool) (max_lanes : ℕ) : ℕ :=
  if lead_obs then 3 * MAX_NUM_VEHS else (3 * max_lanes) + (3 * max_lanes) + 2

/-- Loop body data of `I210SingleEnv.get_state`: the three scaled entries
written for one controllable vehicle.  Mirrors the `lead_id in ["", None]`
test and the sentinel substitution of the source. -/
def obsEntries (k : VehicleKernel) (rl_id : String) : List ℚ :=
  let speed := k.get_speed rl_id
  match k.get_leader rl_id with
  | none =>
      [speed / SPEED_SCALE, HEADWAY_SCALE / HEADWAY_SCALE, SPEED_SCALE / SPEED_SCALE]
  | some lead_id =>
      if lead_id = "" then
        [speed / SPEED_SCALE, HEADWAY_SCALE / HEADWAY_SCALE, SPEED_SCALE / SPEED_SCALE]
      else
        [speed / SPEED_SCALE, k.get_headway rl_id / HEADWAY_SCALE,
          k.get_speed lead_id / SPEED_SCALE]

/-- `per_vehicle_obs = 3` local of `get_state`. -/
def per_vehicle_obs : ℕ := 3

/-- Numpy slice assignment `veh_info[start : start + len(vals)] = vals`. -/
def setSlice (l : List ℚ) (start : ℕ) (vals : List ℚ) : List ℚ :=
  l.take start ++ vals ++ l.drop (start + vals.length)

/-- The `for i, rl_id in enumerate(rl_ids)` loop of `get_state`, filling
slice `[i*per_vehicle_obs, (i+1)*per_vehicle_obs)` for each vehicle. -/
def fillObs (k : VehicleKernel) : ℕ → List String → List ℚ → List ℚ
  | _, [], veh_info => veh_info
  | i, rl_id :: rest, veh_info =>
      fillObs k (i + 1) rest
        (setSlice veh_info (i * per_vehicle_obs) (obsEntries k rl_id))

/-- `I210SingleEnv.get_state`: a zero array of the observation-space size,
filled per selected vehicle. -/
def get_state (lead_obs : Bool) (max_lanes : ℕ) (k : VehicleKernel) : List ℚ :=
  fillObs k 0 (get_sorted_rl_ids k)
    (List.replicate (obs_dim lead_obs max_lanes) 0)

/-- Result type of `compute_reward`: the Python code returns the empty dict
`{}` during warm-up and a numpy scalar otherwise. -/
inductive RewardResult where
  | empty : RewardResult
  | value : ℚ → RewardResult
deriving DecidableEq

/-- Numeric content of a reward result (0 for the warm-up empty dict). -/
def RewardResult.val : RewardResult → ℚ
  | .empty => 0
  | .value r => r

/-- `I210SingleEnv.compute_reward`:
`np.nan_to_num(np.mean([(des - abs(s - des))**2 for s in speeds])) / des**2`
with `speeds = get_speed(get_sorted_rl_ids())`; returns `{}` when
`rl_actions is None`. -/
def compute_reward (k : VehicleKernel) (p : AdditionalParams)
    (rl_actions : Option (List ℚ)) : RewardResult :=
  match rl_actions with
  | none => .empty
  | some _ =>
      let rl_ids := get_sorted_rl_ids k
      let des_speed := p.target_velocity
      .value (nan_to_num (pymean ((rl_ids.map k.get_speed).map
          (fun speed => (des_speed - |speed - des_speed|) ^ 2))) / des_speed ^ 2)

/-- `I210SingleEnv._apply_rl_actions`, modelled by its effect trace: `none`
when no actuation call is made (warm-up), otherwise the single
`apply_acceleration(rl_ids, accels)` call, with `accels[i] = rl_actions[i]`
for each loop index `i` (an index read out of range is `none`). -/
def apply_rl_actions (k : VehicleKernel) (rl_actions : Option (List ℚ)) :
    Option (List String × List (Option ℚ)) :=
  match rl_actions with
  | none => none
  | some acts =>
      let rl_ids := get_sorted_rl_ids k
      let accels := (List.range rl_ids.length).map (fun i => acts[i]?)
      some (rl_ids, accels)

/-- `np.nan_to_num(np.mean(get_speed(get_ids())))` from
`SingleStraightRoad.step`. -/
def mean_speed (k : VehicleKernel) : ℚ :=
  nan_to_num (pymean (k.all_ids.map k.get_speed))

/-- Done-flag computation of `SingleStraightRoad.step`: the base class
result `base_done`, overridden to `True` under the wave condition. -/
def step_done (p : AdditionalParams) (k : VehicleKernel) (time_counter : ℕ)
    (base_done : Bool) : Bool :=
  if p.terminate_on_wave = true ∧ mean_speed k < p.wave_termination_speed ∧
      time_counter > p.wave_termination_horizon ∧ k.all_ids.length > 0 then
    true
  else base_done

/-- Per-vehicle reward formula as worded by the spec sentence "target² minus
squared distance from target, averaged across vehicles, divided by target²";
stated only for comparison against `compute_reward`. -/
def compute_reward_spec_formula (k : VehicleKernel) (p : AdditionalParams) : ℚ :=
  nan_to_num (pymean ((get_sorted_rl_ids k).map (fun id =>
    p.target_velocity ^ 2 - (k.get_speed id - p.target_velocity) ^ 2)))
    / p.target_velocity ^ 2

/-! Concrete snapshots used by witnesses and counterexamples. -/

/-- Parameter record with `target_velocity = 10` and the default wave
configuration of `ADDITIONAL_ENV_PARAMS` (horizon 500, speed floor 10.0). -/
def p10 : AdditionalParams where
  target_velocity := 10
  terminate_on_wave := true
  wave_termination_horizon := 500
  wave_termination_speed := 10
  lead_obs := true

/-- Snapshot with nine controllable vehicles at positions 0, 1, ..., 8. -/
def kNine : VehicleKernel where
  rl_ids := ["v0", "v1", "v2", "v3", "v4", "v5", "v6", "v7", "v8"]
  all_ids := ["v0", "v1", "v2", "v3", "v4", "v5", "v6", "v7", "v8"]
  get_x_by_id := fun id =>
    if id = "v0" then 0 else if id = "v1" then 1 else if id = "v2" then 2
    else if id = "v3" then 3 else if id = "v4" then 4 else if id = "v5" then 5
    else if id = "v6" then 6 else if id = "v7" then 7 else 8
  get_speed := fun _ => 10
  get_leader := fun _ => none
  get_headway := fun _ => 0

/-- Snapshot with one controllable vehicle `"a"` travelling at speed `v`,
with no visible leader. -/
def kOne (v : ℚ) : VehicleKernel where
  rl_ids := ["a"]
  all_ids := ["a"]
  get_x_by_id := fun _ => 0
  get_speed := fun _ => v
  get_leader := fun _ => none
  get_headway := fun _ => 0

/-- Snapshot with no vehicles at all. -/
def kEmpty : VehicleKernel where
  rl_ids := []
  all_ids := []
  get_x_by_id := fun _ => 0
  get_speed := fun _ => 0
  get_leader := fun _ => none
  get_headway := fun _ => 0

/-! Helper lemmas about the selection `get_sorted_rl_ids`. -/

lemma get_sorted_rl_ids_length (k : VehicleKernel) :
    (get_sorted_rl_ids k).length = min k.rl_ids.length MAX_NUM_VEHS := by
  unfold get_sorted_rl_ids
  simp only [List.length_drop, List.length_reverse, List.length_insertionSort]
  omega

lemma get_sorted_rl_ids_length_le (k : VehicleKernel) :
    (get_sorted_rl_ids k).length ≤ MAX_NUM_VEHS := by
  rw [get_sorted_rl_ids_length]; omega

lemma get_sorted_rl_ids_pairwise (k : VehicleKernel) :
    (get_sorted_rl_ids k).Pairwise
      (fun a b => k.get_x_by_id b ≤ k.get_x_by_id a) := by
  unfold get_sorted_rl_ids
  apply List.Pairwise.sublist (List.drop_sublist _ _)
  rw [List.pairwise_reverse]
  haveI : IsTotal String (fun a b => k.get_x_by_id a ≤ k.get_x_by_id b) :=
    ⟨fun a b => le_total _ _⟩
  haveI : IsTrans String (fun a b => k.get_x_by_id a ≤ k.get_x_by_id b) :=
    ⟨fun _ _ _ hab hbc => le_trans hab hbc⟩
  exact List.sorted_insertionSort _ k.rl_ids

lemma get_sorted_rl_ids_drops_front (k : VehicleKernel) :
    ∀ a ∈ k.rl_ids, a ∉ get_sorted_rl_ids k →
      ∀ b ∈ get_sorted_rl_ids k, k.get_x_by_id b ≤ k.get_x_by_id a := by
  intro a ha hnot b hb
  set r : String → String → Prop :=
    fun a b => k.get_x_by_id a ≤ k.get_x_by_id b with hr
  haveI : IsTotal String r := ⟨fun a b => le_total _ _⟩
  haveI : IsTrans String r := ⟨fun _ _ _ hab hbc => le_trans hab hbc⟩
  have hsor : (List.insertionSort r k.rl_ids).reverse.Pairwise
      (fun a b => r b a) := by
    rw [List.pairwise_reverse]
    exact List.sorted_insertionSort r k.rl_ids
  set d := (List.insertionSort r k.rl_ids).reverse with hd
  have hmem : a ∈ d := by
    rw [hd, List.mem_reverse]
    exact ((List.perm_insertionSort r k.rl_ids).mem_iff).mpr ha
  have hsplit : d.take (d.length - MAX_NUM_VEHS) ++
      d.drop (d.length - MAX_NUM_VEHS) = d := List.take_append_drop _ _
  have hpw := hsplit ▸ hsor
  rw [List.pairwise_append] at hpw
  have hatake : a ∈ d.take (d.length - MAX_NUM_VEHS) := by
    rcases (List.mem_append).mp (hsplit ▸ hmem) with h | h
    · exact h
    · exact absurd h hnot
  exact hpw.2.2 a hatake b hb

/-! Helper lemmas about `pymean` and `compute_reward`. -/

lemma list_sum_const {l : List ℚ} {c : ℚ} (h : ∀ x ∈ l, x = c) :
    l.sum = (l.length : ℚ) * c := by
  induction l with
  | nil => simp
  | cons y ys ih =>
      have hy : y = c := h y (List.mem_cons_self y ys)
      have hys := ih (fun x hx => h x (List.mem_cons_of_mem y hx))
      simp [hy, hys]
      ring

lemma pymean_of_ne_nil {l : List ℚ} (h : l ≠ []) :
    pymean l = some (l.sum / (l.length : ℚ)) := by
  simp [pymean, h]

lemma pymean_const {l : List ℚ} {c : ℚ} (h : l ≠ []) (hall : ∀ x ∈ l, x = c) :
    pymean l = some c := by
  rw [pymean_of_ne_nil h, list_sum_const hall]
  have hlen : (l.length : ℚ) ≠ 0 := by
    have := List.length_pos.mpr h
    positivity
  rw [mul_div_cancel_left₀ _ hlen]

lemma compute_reward_single (k : VehicleKernel) (p : AdditionalParams)
    (a : List ℚ) (id : String) (h : get_sorted_rl_ids k = [id]) :
    compute_reward k p (some a) = .value
      ((p.target_velocity - |k.get_speed id - p.target_velocity|) ^ 2
        / p.target_velocity ^ 2) := by
  simp [compute_reward, h, pymean, nan_to_num]

/-! Helper lemmas about `get_state` and its slice-filling loop. -/

lemma obsEntries_length (k : VehicleKernel) (id : String) :
    (obsEntries k id).length = 3 := by
  rcases h : k.get_leader id with _ | lid
  · simp [obsEntries, h]
  · by_cases hl : lid = "" <;> simp [obsEntries, h, hl]

lemma setSlice_length {l : List ℚ} {s : ℕ} {v : List ℚ}
    (h : s + v.length ≤ l.length) : (setSlice l s v).length = l.length := by
  simp [setSlice]
  omega

lemma setSlice_take {l : List ℚ} {s : ℕ} {v : List ℚ}
    (h : s + v.length ≤ l.length) :
    (setSlice l s v).take (s + v.length) = l.take s ++ v := by
  have h1 : (l.take s ++ v).length = s + v.length := by
    simp [List.length_take]
    omega
  rw [setSlice, List.take_left' h1]

lemma setSlice_drop {l : List ℚ} {s : ℕ} {v : List ℚ}
    (h : s + v.length ≤ l.length) :
    (setSlice l s v).drop (s + v.length) = l.drop (s + v.length) := by
  have h1 : (l.take s ++ v).length = s + v.length := by
    simp [List.length_take]
    omega
  rw [setSlice, List.drop_left' h1]

lemma fillObs_eq (k : VehicleKernel) :
    ∀ (ids : List String) (i : ℕ) (acc : List ℚ),
      3 * i + 3 * ids.length ≤ acc.length →
      fillObs k i ids acc =
        acc.take (3 * i) ++ (ids.map (obsEntries k)).flatten ++
          acc.drop (3 * i + 3 * ids.length) := by
  intro ids
  induction ids with
  | nil =>
      intro i acc h
      simp [fillObs]
  | cons id rest ih =>
      intro i acc h
      have hlen3 : (obsEntries k id).length = 3 := obsEntries_length k id
      have hik : i * per_vehicle_obs = 3 * i := by
        simp [per_vehicle_obs]
        ring
      have hcons : (id :: rest).length = rest.length + 1 := List.length_cons id rest
      rw [hcons] at h
      rw [fillObs, hik]
      have hbound : 3 * i + (obsEntries k id).length ≤ acc.length := by
        rw [hlen3]
        omega
      have hlen2 : (setSlice acc (3 * i) (obsEntries k id)).length =
          acc.length := setSlice_length hbound
      rw [ih (i + 1) _ (by rw [hlen2]; omega)]
      have h33 : 3 * (i + 1) = 3 * i + 3 := by ring
      have htake : (setSlice acc (3 * i) (obsEntries k id)).take
          (3 * (i + 1)) = acc.take (3 * i) ++ obsEntries k id := by
        rw [h33]
        have hst := setSlice_take hbound
        rw [hlen3] at hst
        exact hst
      have hdropbase : (setSlice acc (3 * i) (obsEntries k id)).drop
          (3 * i + 3) = acc.drop (3 * i + 3) := by
        have hsd := setSlice_drop hbound
        rw [hlen3] at hsd
        exact hsd
      have hdrop : (setSlice acc (3 * i) (obsEntries k id)).drop
          (3 * (i + 1) + 3 * rest.length) =
          acc.drop (3 * i + 3 * (id :: rest).length) := by
        have e1 : 3 * (i + 1) + 3 * rest.length = (3 * i + 3) + 3 * rest.length := by
          ring
        have e2 : 3 * i + 3 * (id :: rest).length = (3 * i + 3) + 3 * rest.length := by
          rw [hcons]
          ring
        calc (setSlice acc (3 * i) (obsEntries k id)).drop
              (3 * (i + 1) + 3 * rest.length)
            = ((setSlice acc (3 * i) (obsEntries k id)).drop
                (3 * i + 3)).drop (3 * rest.length) := by
              rw [List.drop_drop, ← e1, h33]
          _ = (acc.drop (3 * i + 3)).drop (3 * rest.length) := by rw [hdropbase]
          _ = acc.drop (3 * i + 3 * (id :: rest).length) := by
              rw [List.drop_drop, ← e2]
      rw [htake, hdrop]
      simp [List.flatten_cons, List.append_assoc]

lemma drop_replicate_zero :
    ∀ (n m : ℕ), (List.replicate m (0:ℚ)).drop n = List.replicate (m - n) (0:ℚ) := by
  intro n
  induction n with
  | zero => intro m; rfl
  | succ n ih =>
      intro m
      cases m with
      | zero => simp
      | succ m =>
          rw [List.replicate_succ, List.drop_succ_cons, ih m,
            Nat.succ_sub_succ]

lemma get_state_eq (ml : ℕ) (k : VehicleKernel) :
    get_state true ml k =
      ((get_sorted_rl_ids k).map (obsEntries k)).flatten ++
        List.replicate (3 * MAX_NUM_VEHS - 3 * (get_sorted_rl_ids k).length) 0 := by
  have hn := get_sorted_rl_ids_length_le k
  rw [get_state]
  have hdim : obs_dim true ml = 3 * MAX_NUM_VEHS := rfl
  rw [hdim]
  rw [fillObs_eq k (get_sorted_rl_ids k) 0 (List.replicate (3 * MAX_NUM_VEHS) 0)
    (by simp [MAX_NUM_VEHS] at hn ⊢; omega)]
  rw [drop_replicate_zero]
  simp

lemma flatten_obs_length (k : VehicleKernel) (ids : List String) :
    ((ids.map (obsEntries k)).flatten).length = 3 * ids.length := by
  induction ids with
  | nil => simp
  | cons id rest ih =>
      simp [List.flatten_cons, obsEntries_length, ih]
      ring

lemma getD_replicate_zero (n m : ℕ) :
    (List.replicate n (0:ℚ)).getD m 0 = 0 := by
  rw [List.getD_eq_getElem?_getD, List.getElem?_replicate]
  split <;> rfl

lemma get_state_length (ml : ℕ) (k : VehicleKernel) :
    (get_state true ml k).length = 3 * MAX_NUM_VEHS := by
  have hn := get_sorted_rl_ids_length_le k
  rw [get_state_eq ml k]
  simp only [List.length_append, flatten_obs_length, List.length_replicate]
  simp [MAX_NUM_VEHS] at hn ⊢
  omega

/-! Claim theorems. -/

/-- C1, counterexample: with nine controllable vehicles at positions
0, ..., 8, `get_sorted_rl_ids` keeps `v7, ..., v0` — it drops `v8`, the
vehicle furthest along the road, and keeps `v0`, the one furthest back,
contradicting "keeping only the 8 vehicles closest to the front ... the one
dropped is the one furthest back". -/
theorem c1_counterexample :
    get_sorted_rl_ids kNine = ["v7", "v6", "v5", "v4", "v3", "v2", "v1", "v0"] ∧
    "v8" ∉ get_sorted_rl_ids kNine ∧
    "v0" ∈ get_sorted_rl_ids kNine ∧
    kNine.get_x_by_id "v8" = 8 ∧ kNine.get_x_by_id "v0" = 0 := by
  refine ⟨by decide, by decide, by decide, by decide, by decide⟩

/-- C1, amended: `get_sorted_rl_ids` returns `min (count) 8` identifiers
sorted by descending position along the road, keeping only the 8 vehicles
furthest BACK: every vehicle it drops lies at a position at least as far
along as every vehicle it keeps (with 9 vehicles, exactly the front-most one
is dropped). -/
theorem c1_sorted_selection (k : VehicleKernel) :
    (get_sorted_rl_ids k).length = min k.rl_ids.length MAX_NUM_VEHS ∧
    (get_sorted_rl_ids k).Pairwise
      (fun a b => k.get_x_by_id b ≤ k.get_x_by_id a) ∧
    (∀ a ∈ k.rl_ids, a ∉ get_sorted_rl_ids k →
      ∀ b ∈ get_sorted_rl_ids k, k.get_x_by_id b ≤ k.get_x_by_id a) :=
  ⟨get_sorted_rl_ids_length k, get_sorted_rl_ids_pairwise k,
    get_sorted_rl_ids_drops_front k⟩

/-- C2, counterexample: with target velocity 10, a lone vehicle at the
target speed has mean absolute deviation 0 and reward 1, while a lone
vehicle at speed 40 has mean absolute deviation 30 and reward 4: the reward
does not strictly decrease as the mean absolute deviation increases. -/
theorem c2_counterexample :
    |(kOne 10).get_speed "a" - p10.target_velocity| = 0 ∧
    |(kOne 40).get_speed "a" - p10.target_velocity| = 30 ∧
    compute_reward (kOne 10) p10 (some []) = .value 1 ∧
    compute_reward (kOne 40) p10 (some []) = .value 4 ∧
    ¬ ((compute_reward (kOne 40) p10 (some [])).val <
        (compute_reward (kOne 10) p10 (some [])).val) := by
  have e10 : compute_reward (kOne 10) p10 (some []) = .value 1 := by
    rw [compute_reward_single (kOne 10) p10 [] "a" (by decide)]
    norm_num [kOne, p10]
  have e40 : compute_reward (kOne 40) p10 (some []) = .value 4 := by
    rw [compute_reward_single (kOne 40) p10 [] "a" (by decide)]
    norm_num [kOne, p10]
  refine ⟨by norm_num [kOne, p10], by norm_num [kOne, p10], e10, e40, ?_⟩
  rw [e10, e40]
  norm_num [RewardResult.val]

/-- C2, amended: with a positive target velocity, the reward is 1 whenever
at least one controllable vehicle is selected and every selected vehicle's
speed equals the target; and for a single selected vehicle the reward
strictly decreases as its absolute deviation from the target increases, as
long as the deviation stays within [0, target]. -/
theorem c2_reward_shape (p : AdditionalParams) (hdes : 0 < p.target_velocity) :
    (∀ (k : VehicleKernel) (a : List ℚ), get_sorted_rl_ids k ≠ [] →
      (∀ id ∈ get_sorted_rl_ids k, k.get_speed id = p.target_velocity) →
      compute_reward k p (some a) = .value 1) ∧
    (∀ (k1 k2 : VehicleKernel) (a1 a2 : List ℚ) (id1 id2 : String),
      get_sorted_rl_ids k1 = [id1] → get_sorted_rl_ids k2 = [id2] →
      |k1.get_speed id1 - p.target_velocity| <
        |k2.get_speed id2 - p.target_velocity| →
      |k2.get_speed id2 - p.target_velocity| ≤ p.target_velocity →
      (compute_reward k2 p (some a2)).val < (compute_reward k1 p (some a1)).val) := by
  have hdes2 : (0:ℚ) < p.target_velocity ^ 2 := pow_pos hdes 2
  constructor
  · intro k a hne hall
    have hmapne : ((get_sorted_rl_ids k).map k.get_speed).map
        (fun speed => (p.target_velocity - |speed - p.target_velocity|) ^ 2) ≠ [] := by
      simpa using hne
    have hconst : ∀ x ∈ ((get_sorted_rl_ids k).map k.get_speed).map
        (fun speed => (p.target_velocity - |speed - p.target_velocity|) ^ 2),
        x = p.target_velocity ^ 2 := by
      intro x hx
      rcases List.mem_map.mp hx with ⟨s, hs, rfl⟩
      rcases List.mem_map.mp hs with ⟨id, hid, rfl⟩
      rw [hall id hid]
      simp
    rw [compute_reward]
    rw [pymean_const hmapne hconst]
    simp only [nan_to_num, Option.getD_some]
    rw [div_self (ne_of_gt hdes2)]
  · intro k1 k2 a1 a2 id1 id2 h1 h2 hlt hle
    rw [compute_reward_single k1 p a1 id1 h1, compute_reward_single k2 p a2 id2 h2]
    simp only [RewardResult.val]
    rw [div_lt_div_iff_of_pos_right hdes2]
    have h0 : (0:ℚ) ≤ p.target_velocity - |k2.get_speed id2 - p.target_velocity| :=
      sub_nonneg.mpr hle
    have hsub : p.target_velocity - |k2.get_speed id2 - p.target_velocity| <
        p.target_velocity - |k1.get_speed id1 - p.target_velocity| :=
      sub_lt_sub_left hlt _
    exact pow_lt_pow_left₀ hsub h0 (by norm_num)

/-- C2, witness for the amended theorem at target velocity 10: a lone
vehicle at speed 10 earns reward 1, and a lone vehicle at speed 6 (absolute
deviation 4) earns strictly less than one at speed 10 (deviation 0). -/
theorem c2_reward_shape_witness :
    compute_reward (kOne 10) p10 (some []) = .value 1 ∧
    (compute_reward (kOne 6) p10 (some [])).val <
      (compute_reward (kOne 10) p10 (some [])).val := by
  constructor
  · exact (c2_reward_shape p10 (by norm_num [p10])).1 (kOne 10) []
      (by decide) (by decide)
  · exact (c2_reward_shape p10 (by norm_num [p10])).2 (kOne 10) (kOne 6) [] []
      "a" "a" (by decide) (by decide) (by norm_num [kOne, p10])
      (by norm_num [kOne, p10])

/-- C3, counterexample: with target velocity 10 and a lone vehicle at speed
5, the code's reward is ((10 - |5 - 10|)^2)/100 = 1/4, while the formula the
claim states — target² minus squared distance from target, averaged, then
divided by target² — gives (100 - 25)/100 = 3/4. -/
theorem c3_counterexample :
    compute_reward (kOne 5) p10 (some []) = .value (1/4) ∧
    compute_reward_spec_formula (kOne 5) p10 = 3/4 ∧
    ((1:ℚ)/4) ≠ 3/4 := by
  have h5 : get_sorted_rl_ids (kOne 5) = ["a"] := by decide
  have e5 := compute_reward_single (kOne 5) p10 [] "a" h5
  norm_num [kOne, p10] at e5
  refine ⟨e5, ?_, by norm_num⟩
  rw [compute_reward_spec_formula, h5]
  norm_num [kOne, p10, pymean, nan_to_num]

/-- C3, amended: for a non-None action the reward equals the mean over the
selected vehicles of (target minus the absolute deviation of the vehicle's
speed from target) squared, divided by target²; in particular, with target
velocity 10 and one controllable vehicle, speed 10 yields reward 1 and speed
0 yields reward 0. -/
theorem c3_reward_formula (k : VehicleKernel) (p : AdditionalParams)
    (a : List ℚ) (h : get_sorted_rl_ids k ≠ []) :
    compute_reward k p (some a) = .value
      ((((get_sorted_rl_ids k).map k.get_speed).map
          (fun speed => (p.target_velocity - |speed - p.target_velocity|) ^ 2)).sum
        / ((get_sorted_rl_ids k).length : ℚ) / p.target_velocity ^ 2) ∧
    compute_reward (kOne 10) p10 (some []) = .value 1 ∧
    compute_reward (kOne 0) p10 (some []) = .value 0 := by
  refine ⟨?_, ?_, ?_⟩
  · have hmapne : ((get_sorted_rl_ids k).map k.get_speed).map
        (fun speed => (p.target_velocity - |speed - p.target_velocity|) ^ 2) ≠ [] := by
      simpa using h
    rw [compute_reward, pymean_of_ne_nil hmapne]
    simp [nan_to_num]
  · have e := compute_reward_single (kOne 10) p10 [] "a" (by decide)
    norm_num [kOne, p10] at e
    exact e
  · have e := compute_reward_single (kOne 0) p10 [] "a" (by decide)
    norm_num [kOne, p10] at e
    exact e

/-- C3, witness for the amended theorem: evaluated on the lone-vehicle
snapshot at speed 5 with target 10, the stated formula gives 1/4. -/
theorem c3_reward_formula_witness :
    compute_reward (kOne 5) p10 (some []) = .value
      ((((get_sorted_rl_ids (kOne 5)).map (kOne 5).get_speed).map
          (fun speed => (p10.target_velocity - |speed - p10.target_velocity|) ^ 2)).sum
        / ((get_sorted_rl_ids (kOne 5)).length : ℚ) / p10.target_velocity ^ 2) ∧
    compute_reward (kOne 10) p10 (some []) = .value 1 ∧
    compute_reward (kOne 0) p10 (some []) = .value 0 :=
  c3_reward_formula (kOne 5) p10 [] (by decide)

/-- C4: the `SingleStraightRoad.step` done flag, starting from a base-class
done of False, is True exactly when wave termination is enabled, the mean
speed of all vehicles is below the configured floor, the elapsed step count
exceeds the configured horizon, and at least one vehicle is present; with
horizon 500 and floor 10, a lone vehicle at speed 5 terminates the episode
at step 501 but not at step 400. -/
theorem c4_wave_termination (p : AdditionalParams) (k : VehicleKernel) (t : ℕ) :
    (step_done p k t false = true ↔
      (p.terminate_on_wave = true ∧ mean_speed k < p.wave_termination_speed ∧
        t > p.wave_termination_horizon ∧ k.all_ids.length > 0)) ∧
    step_done p10 (kOne 5) 501 false = true ∧
    step_done p10 (kOne 5) 400 false = false := by
  refine ⟨?_, ?_, ?_⟩
  · unfold step_done
    split
    · next hc => simp [hc]
    · next hc => simp [hc]
  · have hm : mean_speed (kOne 5) = 5 := by
      norm_num [mean_speed, kOne, pymean, nan_to_num]
    unfold step_done
    rw [if_pos]
    exact ⟨rfl, by rw [hm]; norm_num [p10], by norm_num [p10], by decide⟩
  · have hm : mean_speed (kOne 5) = 5 := by
      norm_num [mean_speed, kOne, pymean, nan_to_num]
    unfold step_done
    rw [if_neg]
    intro hc
    have := hc.2.2.1
    norm_num [p10] at this

/-- C7: with a non-None action, a positive target velocity and no live
controllable vehicles, `compute_reward` returns the numeric value 0 — the
empty mean's NaN is suppressed to zero — rather than NaN or an exception. -/
theorem c7_reward_no_vehicles (k : VehicleKernel) (p : AdditionalParams)
    (a : List ℚ) (hk : k.rl_ids = []) (hdes : 0 < p.target_velocity) :
    compute_reward k p (some a) = .value 0 := by
  have hsel : get_sorted_rl_ids k = [] := by
    unfold get_sorted_rl_ids
    rw [hk]
    rfl
  rw [compute_reward, hsel]
  simp [pymean, nan_to_num]

/-- C7, witness: on the vehicle-free snapshot with target velocity 10 the
reward is the numeric value 0. -/
theorem c7_reward_no_vehicles_witness :
    compute_reward kEmpty p10 (some []) = .value 0 :=
  c7_reward_no_vehicles kEmpty p10 [] rfl (by norm_num [p10])

/-- C8: when the action is None (warm-up), `_apply_rl_actions` issues no
actuation call at all, and `compute_reward` returns the empty mapping
rather than a numeric reward. -/
theorem c8_warmup_no_actuation (k : VehicleKernel) (p : AdditionalParams) :
    apply_rl_actions k none = none ∧ compute_reward k p none = .empty :=
  ⟨rfl, rfl⟩

/-- C9: the wave check of `SingleStraightRoad.step` never clears a
termination signal: whenever the base class reports done, the returned done
flag is still True, for every configuration, snapshot and step count. -/
theorem c9_done_never_cleared (p : AdditionalParams) (k : VehicleKernel)
    (t : ℕ) : step_done p k t true = true := by
  unfold step_done
  split <;> rfl

/-- C5: in lead-observation mode the state vector always has length exactly
3 × MAX_NUM_VEHS = 24, independent of the live controllable-vehicle count,
and with k selected vehicles every entry at index 3·k and beyond is exactly
zero. -/
theorem c5_fixed_length_zero_padding (ml : ℕ) (k : VehicleKernel) :
    (get_state true ml k).length = 3 * MAX_NUM_VEHS ∧
    ∀ j, 3 * (get_sorted_rl_ids k).length ≤ j →
      (get_state true ml k).getD j 0 = 0 := by
  refine ⟨get_state_length ml k, ?_⟩
  intro j hj
  rw [get_state_eq ml k]
  rw [List.getD_append_right _ _ _ _ (by rw [flatten_obs_length]; exact hj)]
  exact getD_replicate_zero _ _

/-- C6: for a selected vehicle whose leader query returns None or the empty
string, the headway and leader-speed entries of its observation triple are
the scaled sentinels HEADWAY_SCALE/HEADWAY_SCALE and SPEED_SCALE/SPEED_SCALE,
both equal to 1 and in particular never zero. -/
theorem c6_missing_leader_sentinels (ml : ℕ) (k : VehicleKernel)
    (pre post : List String) (id : String)
    (hsel : get_sorted_rl_ids k = pre ++ id :: post)
    (hlead : k.get_leader id = none ∨ k.get_leader id = some "") :
    (get_state true ml k).getD (3 * pre.length + 1) 0 =
      HEADWAY_SCALE / HEADWAY_SCALE ∧
    (get_state true ml k).getD (3 * pre.length + 2) 0 =
      SPEED_SCALE / SPEED_SCALE ∧
    HEADWAY_SCALE / HEADWAY_SCALE = (1:ℚ) ∧
    SPEED_SCALE / SPEED_SCALE = (1:ℚ) ∧ (1:ℚ) ≠ 0 := by
  have he : obsEntries k id = [k.get_speed id / SPEED_SCALE,
      HEADWAY_SCALE / HEADWAY_SCALE, SPEED_SCALE / SPEED_SCALE] := by
    rcases hlead with h | h <;> simp [obsEntries, h]
  have hflat : (get_state true ml k) =
      ((pre.map (obsEntries k)).flatten ++
        (obsEntries k id :: post.map (obsEntries k)).flatten) ++
        List.replicate (3 * MAX_NUM_VEHS - 3 * (get_sorted_rl_ids k).length) 0 := by
    rw [get_state_eq ml k, hsel, List.map_append, List.map_cons,
      List.flatten_append]
  have hA : ((pre.map (obsEntries k)).flatten).length = 3 * pre.length :=
    flatten_obs_length k pre
  refine ⟨?_, ?_, by norm_num [HEADWAY_SCALE], by norm_num [SPEED_SCALE],
    by norm_num⟩
  · rw [hflat, List.append_assoc,
      List.getD_append_right _ _ _ _ (by rw [hA]; omega), hA,
      Nat.add_sub_cancel_left, List.flatten_cons, he]
    simp
  · rw [hflat, List.append_assoc,
      List.getD_append_right _ _ _ _ (by rw [hA]; omega), hA,
      Nat.add_sub_cancel_left, List.flatten_cons, he]
    simp

/-- C6, witness: on the lone-vehicle snapshot at speed 7 with no leader, the
second and third observation entries are the scaled sentinels, equal to 1. -/
theorem c6_missing_leader_sentinels_witness :
    (get_state true MAX_LANES (kOne 7)).getD 1 0 =
      HEADWAY_SCALE / HEADWAY_SCALE ∧
    (get_state true MAX_LANES (kOne 7)).getD 2 0 =
      SPEED_SCALE / SPEED_SCALE ∧
    HEADWAY_SCALE / HEADWAY_SCALE = (1:ℚ) ∧
    SPEED_SCALE / SPEED_SCALE = (1:ℚ) ∧ (1:ℚ) ≠ 0 :=
  c6_missing_leader_sentinels MAX_LANES (kOne 7) [] [] "a" (by decide)
    (Or.inl rfl)

/-- C10: the selection never exceeds MAX_NUM_VEHS identifiers (and is
exactly MAX_NUM_VEHS when at least that many controllable vehicles are
live), the state vector stays inside its fixed 24-slot array, and with an
action vector of the fixed length MAX_NUM_VEHS every per-vehicle action
lookup performed by the actuation loop is in range. -/
theorem c10_bounded_access (k : VehicleKernel) (acts : List ℚ) :
    (get_sorted_rl_ids k).length ≤ MAX_NUM_VEHS ∧
    (MAX_NUM_VEHS ≤ k.rl_ids.length →
      (get_sorted_rl_ids k).length = MAX_NUM_VEHS) ∧
    (get_state true MAX_LANES k).length = 3 * MAX_NUM_VEHS ∧
    (∀ ids accels, apply_rl_actions k (some acts) = some (ids, accels) →
      acts.length = MAX_NUM_VEHS → ∀ o ∈ accels, o.isSome = true) := by
  refine ⟨get_sorted_rl_ids_length_le k, ?_, get_state_length MAX_LANES k, ?_⟩
  · intro h8
    rw [get_sorted_rl_ids_length]
    omega
  · intro ids accels happ hlen o ho
    have haccels : accels =
        (List.range (get_sorted_rl_ids k).length).map (fun i => acts[i]?) := by
      have : (get_sorted_rl_ids k,
          (List.range (get_sorted_rl_ids k).length).map (fun i => acts[i]?)) =
          (ids, accels) := by
        simpa [apply_rl_actions] using happ
      exact (Prod.mk.injEq _ _ _ _ ▸ this).2.symm
    rw [haccels] at ho
    rcases List.mem_map.mp ho with ⟨i, hi, rfl⟩
    have hilt : i < acts.length := by
      have h1 := List.mem_range.mp hi
      have h2 := get_sorted_rl_ids_length_le k
      omega
    rw [List.getElem?_eq_getElem hilt]
    rfl

end StraightRoad
